import Mathlib

/-!
Shallow embedding of the notification-service delivery orchestration layer
(`src/backend/notification-service`): the `Notification` data model with its
status state machine and retry counter (`models/notification.py`), and the
`NotificationService` orchestrator with channel health tracking, circuit
breakers, priority queues, single-channel delivery, retry and emergency
fan-out (`services/notification_service.py`), plus the SMS channel handler
(`handlers/sms_handler.py`).

Python dictionaries are modelled as association lists with unique keys,
`datetime` values as a broken-down record with an `isoformat` renderer, and
exceptions as `Except String`.  Channel collaborator calls (SMTP, FCM/APNs,
Twilio) are abstracted to their observable outcome (success, failure return,
or raised exception); everything on the orchestrator side of that contract is
translated from the source.
-/

namespace NotifSvc

/-- Enum of supported notification types (`models/notification.py`). -/
inductive NotificationType where
  | WALK_SCHEDULED
  | WALK_STARTED
  | WALK_COMPLETED
  | WALK_CANCELLED
  | PAYMENT_RECEIVED
  | PAYMENT_FAILED
  | WALKER_ASSIGNED
  | EMERGENCY_ALERT
  | LOCATION_UPDATE
  | REVIEW_REQUEST
deriving DecidableEq, Repr

/-- Enum of delivery statuses (`models/notification.py`). -/
inductive NotificationStatus where
  | PENDING
  | SENT
  | DELIVERED
  | FAILED
  | RETRYING
deriving DecidableEq, Repr

/-- Enum of delivery channels (`models/notification.py`). -/
inductive NotificationChannel where
  | EMAIL
  | PUSH
  | SMS
deriving DecidableEq, Repr

/-- The Python `.name` attribute of a `NotificationType` member. -/
def typeName : NotificationType → String
  | .WALK_SCHEDULED => "WALK_SCHEDULED"
  | .WALK_STARTED => "WALK_STARTED"
  | .WALK_COMPLETED => "WALK_COMPLETED"
  | .WALK_CANCELLED => "WALK_CANCELLED"
  | .PAYMENT_RECEIVED => "PAYMENT_RECEIVED"
  | .PAYMENT_FAILED => "PAYMENT_FAILED"
  | .WALKER_ASSIGNED => "WALKER_ASSIGNED"
  | .EMERGENCY_ALERT => "EMERGENCY_ALERT"
  | .LOCATION_UPDATE => "LOCATION_UPDATE"
  | .REVIEW_REQUEST => "REVIEW_REQUEST"

/-- The Python `.value` attribute; in this enum every value equals the name. -/
def typeValue (t : NotificationType) : String := typeName t

/-- The Python `.name` attribute of a `NotificationStatus` member. -/
def statusName : NotificationStatus → String
  | .PENDING => "PENDING"
  | .SENT => "SENT"
  | .DELIVERED => "DELIVERED"
  | .FAILED => "FAILED"
  | .RETRYING => "RETRYING"

/-- The Python `.name` attribute of a `NotificationChannel` member. -/
def channelName : NotificationChannel → String
  | .EMAIL => "EMAIL"
  | .PUSH => "PUSH"
  | .SMS => "SMS"

/-- Broken-down model of a Python `datetime` value. -/
structure Datetime where
  year : Nat
  month : Nat
  day : Nat
  hour : Nat
  minute : Nat
  second : Nat
  microsecond : Nat
deriving DecidableEq, Repr

/-- Left-pad the decimal rendering of `n` with zeros to `width` characters. -/
def padNum (width : Nat) (n : Nat) : String :=
  let s := toString n
  String.mk (List.replicate (width - s.length) '0') ++ s

/-- CPython `datetime.isoformat()`: `YYYY-MM-DDTHH:MM:SS`, with a
`.ffffff` microsecond suffix exactly when the microsecond field is nonzero. -/
def Datetime.isoformat (d : Datetime) : String :=
  padNum 4 d.year ++ "-" ++ padNum 2 d.month ++ "-" ++ padNum 2 d.day ++ "T" ++
  padNum 2 d.hour ++ ":" ++ padNum 2 d.minute ++ ":" ++ padNum 2 d.second ++
  (if d.microsecond = 0 then "" else "." ++ padNum 6 d.microsecond)

/-- Model of the Python values stored in `content` / `metadata` dictionaries
and in keyword-argument dictionaries.  `obj tag` stands for an opaque object
reference (such as the `Notification` instance the SMS handler receives),
identified by its id. -/
inductive PyValue where
  | str (s : String)
  | int (n : Int)
  | bool (b : Bool)
  | dict (l : List (String × PyValue))
  | obj (tag : String)

/-- A Python dict, modelled as an association list (keys kept unique by
`dinsert`). -/
abbrev PyDict := List (String × PyValue)

/-- Python `d[k] = v`: replace the value at `k` when present, else append. -/
def dinsert (k : String) (v : PyValue) (l : PyDict) : PyDict :=
  if l.any (fun kv => kv.1 == k) then
    l.map (fun kv => bif kv.1 == k then (k, v) else kv)
  else l ++ [(k, v)]

/-- Python `del d[k]` (a no-op when `k` is absent, matching the guarded
`if k in d: del d[k]` pattern in the source). -/
def derase (k : String) (l : PyDict) : PyDict :=
  l.filter (fun kv => kv.1 != k)

/-- Core notification record (`models/notification.py`, class `Notification`). -/
structure Notification where
  id : String
  recipient_id : String
  type : NotificationType
  channel : NotificationChannel
  status : NotificationStatus
  content : PyDict
  metadata : PyDict
  created_at : Datetime
  updated_at : Datetime
  retry_count : Nat
  max_retries : Nat

/-- Channel-determined retry budget set in `Notification.__init__`:
EMAIL gets 3, PUSH gets 2, and every other channel (SMS) gets 1. -/
def maxRetriesFor : NotificationChannel → Nat
  | .EMAIL => 3
  | .PUSH => 2
  | .SMS => 1

/-- Allowed-successor table of `Notification.update_status`. -/
def allowed_transitions : NotificationStatus → List NotificationStatus
  | .PENDING => [.SENT, .FAILED, .RETRYING]
  | .SENT => [.DELIVERED, .FAILED, .RETRYING]
  | .DELIVERED => []
  | .FAILED => [.RETRYING]
  | .RETRYING => [.SENT, .FAILED]

/-- `Notification.update_status`: reject a transition outside the
allowed-successor table with a `ValueError` (the notification is then left
untouched); otherwise set `status` and refresh `updated_at` to `now`. -/
def update_status (n : Notification) (new_status : NotificationStatus)
    (now : Datetime) : Except String Notification :=
  if new_status ∈ allowed_transitions n.status then
    .ok { n with status := new_status, updated_at := now }
  else
    .error ("Invalid status transition from " ++ statusName n.status ++
      " to " ++ statusName new_status ++ ".")

/-- `Notification.increment_retry`: bump `retry_count`, refresh `updated_at`,
record the exponential backoff `5 * 2 ^ (retry_count - 1)` (computed with the
post-increment counter) under `last_retry_backoff_seconds` in `metadata`, and
report whether the new `retry_count` has reached `max_retries`. -/
def increment_retry (n : Notification) (now : Datetime) : Bool × Notification :=
  let rc := n.retry_count + 1
  let backoff : Int := 5 * 2 ^ (rc - 1)
  (decide (rc ≥ n.max_retries),
    { n with
      retry_count := rc
      updated_at := now
      metadata := dinsert "last_retry_backoff_seconds" (.int backoff) n.metadata })

/-- `Notification._sanitize_data`: drop the `password` key, then the `token`
key, from a copy of the dictionary. -/
def sanitize_data (data : PyDict) : PyDict :=
  derase "token" (derase "password" data)

/-- `Notification.to_dict`: serialize the notification, rendering enum fields
by `.name`, timestamps with `isoformat`, and sanitized copies of `content`
and `metadata`. -/
def to_dict (n : Notification) : PyDict :=
  [ ("id", .str n.id)
  , ("recipient_id", .str n.recipient_id)
  , ("type", .str (typeName n.type))
  , ("channel", .str (channelName n.channel))
  , ("status", .str (statusName n.status))
  , ("content", .dict (sanitize_data n.content))
  , ("metadata", .dict (sanitize_data n.metadata))
  , ("created_at", .str n.created_at.isoformat)
  , ("updated_at", .str n.updated_at.isoformat)
  , ("retry_count", .int n.retry_count)
  , ("max_retries", .int n.max_retries) ]

/-- Per-channel entry of `NotificationService._channel_health`:
`{"state": "UP", "failures": 0}` initially. -/
structure ChannelHealth where
  state : String
  failures : Nat
deriving DecidableEq, Repr

/-- Per-channel entry of `NotificationService._channel_breakers`:
`{"is_open": False, "threshold": 5}` initially. -/
structure ChannelBreaker where
  is_open : Bool
  threshold : Nat
deriving DecidableEq, Repr

/-- Per-channel entry of `NotificationService._priority_queues`:
`{"normal": [], "emergency": []}`; the lists store the ids of the appended
notifications. -/
structure ChannelQueues where
  normal : List String
  emergency : List String
deriving DecidableEq, Repr

/-- The mutable state of a `NotificationService` instance: health records,
circuit breakers and priority queues, each keyed by channel. -/
structure ServiceState where
  health : NotificationChannel → ChannelHealth
  breakers : NotificationChannel → ChannelBreaker
  queues : NotificationChannel → ChannelQueues

/-- The state built by `NotificationService.__init__`: every channel UP with
zero failures, every breaker closed with threshold 5, every queue empty. -/
def initState : ServiceState where
  health := fun _ => { state := "UP", failures := 0 }
  breakers := fun _ => { is_open := false, threshold := 5 }
  queues := fun _ => { normal := [], emergency := [] }

/-- Overwrite the consecutive-failure counter of channel `c`. -/
def set_failures (st : ServiceState) (c : NotificationChannel) (f : Nat) :
    ServiceState :=
  { st with health := fun c2 =>
      if c2 = c then { st.health c2 with failures := f } else st.health c2 }

/-- Set `is_open` of the breaker of channel `c` to true. -/
def open_breaker (st : ServiceState) (c : NotificationChannel) : ServiceState :=
  { st with breakers := fun c2 =>
      if c2 = c then { st.breakers c2 with is_open := true } else st.breakers c2 }

/-- Observable outcome of one channel collaborator call: the collaborator
reported success, reported failure (a falsy return / non-SUCCESS status), or
raised an exception. -/
inductive DeliverOutcome where
  | success
  | failure
  | raised
deriving DecidableEq, Repr

/-- Failure bookkeeping of `handle_channel_delivery` (steps 5 and 6): bump the
consecutive-failure counter and open the circuit once it reaches the breaker
threshold. -/
def record_failure (st : ServiceState) (c : NotificationChannel) : ServiceState :=
  let f := (st.health c).failures + 1
  let st1 := set_failures st c f
  if f ≥ (st.breakers c).threshold then open_breaker st1 c else st1

/-- Step 7 of `handle_channel_delivery`: on success, optimistically run
`update_status(SENT)` then `update_status(DELIVERED)` inside one `try`,
swallowing the `ValueError` either raises (so a raise in the first call skips
the second and leaves the notification as it was). -/
def apply_success_transitions (n : Notification) (now : Datetime) : Notification :=
  match update_status n .SENT now with
  | .error _ => n
  | .ok n1 =>
    match update_status n1 .DELIVERED now with
    | .error _ => n1
    | .ok n2 => n2

/-- Result of one `handle_channel_delivery` run: the returned boolean, whether
the channel collaborator was actually invoked, and the post-state of the
service and of the notification. -/
structure DeliveryResult where
  success : Bool
  invoked : Bool
  state : ServiceState
  notif : Notification

/-- `NotificationService.handle_channel_delivery`, with the collaborator call
abstracted to its outcome `out`: refuse (returning false, collaborator not
invoked, nothing changed) when the channel health is not `UP` or the breaker
is open; otherwise on success reset the failure counter and apply the
optimistic SENT/DELIVERED transitions, and on failure or exception run the
failure bookkeeping. -/
def handle_channel_delivery (st : ServiceState) (n : Notification)
    (c : NotificationChannel) (out : DeliverOutcome) (now : Datetime) :
    DeliveryResult :=
  if (st.health c).state ≠ "UP" then
    { success := false, invoked := false, state := st, notif := n }
  else if (st.breakers c).is_open then
    { success := false, invoked := false, state := st, notif := n }
  else
    match out with
    | .success =>
      { success := true, invoked := true, state := set_failures st c 0,
        notif := apply_success_transitions n now }
    | .failure =>
      { success := false, invoked := true, state := record_failure st c,
        notif := n }
    | .raised =>
      { success := false, invoked := true, state := record_failure st c,
        notif := n }

/-- Python `d.get(k, default)`. -/
def dget (l : PyDict) (k : String) (dflt : PyValue) : PyValue :=
  match l.lookup k with
  | some v => v
  | none => dflt

/-- Keyword arguments built by `handle_channel_delivery` step 3 for the email
collaborator `EmailHandler.send_email`. -/
def email_method_args (n : Notification) : PyDict :=
  [ ("recipient_email", .str n.recipient_id)
  , ("subject", .str ("Notification - " ++ typeValue n.type))
  , ("template_name", .str "default_template")
  , ("context", .dict n.content)
  , ("priority", .bool (decide (n.type = .EMERGENCY_ALERT))) ]

/-- Keyword arguments built by `handle_channel_delivery` step 3 for the push
collaborator `PushNotificationHandler.handle_notification`: a rendered
title/body/data payload and platform/device-token options, both copied out of
`content`. -/
def push_method_args (n : Notification) : PyDict :=
  [ ("notification", .dict
      [ ("title", dget n.content "title" (.str "DogWalking Update"))
      , ("body", dget n.content "body" (.str "A new notification for you."))
      , ("data", dget n.content "data" (.dict [])) ])
  , ("options", .dict
      [ ("platform", dget n.content "platform" (.str "android"))
      , ("device_token", dget n.content "device_token" (.str "")) ]) ]

/-- Keyword arguments built by `handle_channel_delivery` step 3 for the SMS
collaborator `SMSHandler.send`: the `Notification` object itself (modelled as
an opaque object reference carrying its id). -/
def sms_method_args (n : Notification) : PyDict :=
  [ ("notification", .obj n.id) ]

/-- The keyword-argument dictionary `method_args` that
`handle_channel_delivery` passes to the channel collaborator. -/
def method_args (n : Notification) : NotificationChannel → PyDict
  | .EMAIL => email_method_args n
  | .PUSH => push_method_args n
  | .SMS => sms_method_args n

/-- The explicit boolean `priority` flag contained in the keyword arguments
passed downstream to a channel collaborator, when one is present. -/
def passed_priority_flag (n : Notification) (c : NotificationChannel) :
    Option Bool :=
  match (method_args n c).lookup "priority" with
  | some (.bool b) => some b
  | _ => none

/-- The channel list the emergency fan-out of
`send_emergency_notification` iterates over: one delivery task per channel. -/
def emergency_channels : List NotificationChannel := [.EMAIL, .PUSH, .SMS]

/-- Step 2 of `send_emergency_notification`: append the notification to the
`emergency` queue of every channel. -/
def enqueue_emergency_all (st : ServiceState) (n : Notification) : ServiceState :=
  { st with queues := fun c =>
      { st.queues c with emergency := (st.queues c).emergency ++ [n.id] } }

/-- Appending to a `normal` queue, as `send_notification` does before a
non-emergency delivery. -/
def enqueue_normal (st : ServiceState) (c : NotificationChannel) (i : String) :
    ServiceState :=
  { st with queues := fun c2 =>
      if c2 = c then
        { st.queues c2 with normal := (st.queues c2).normal ++ [i] }
      else st.queues c2 }

/-- Outcome of one fan-out delivery task as observed by the aggregation loop
of `send_emergency_notification`: the task completed before the 300-second
deadline with a boolean result, its `result()` raised an exception, or it was
still unfinished at the deadline (left in `pending` and discarded). -/
inductive AttemptOutcome where
  | completed (b : Bool)
  | raised
  | unfinished
deriving DecidableEq, Repr

/-- Whether a fan-out task counts towards `success_count`: only a task that
completed with result `True`; an exception or an unfinished task counts as a
failure and is not propagated. -/
def attempt_success : AttemptOutcome → Bool
  | .completed b => b
  | .raised => false
  | .unfinished => false

/-- Result of `send_emergency_notification`: the returned boolean, the
post-state of the service, and whether the escalation path was taken. -/
structure EmergencyResult where
  ok : Bool
  state : ServiceState
  escalated : Bool

/-- `NotificationService.send_emergency_notification`, with each fan-out task
abstracted to its aggregation-time outcome: reject a non-emergency
notification with a `ValueError`; otherwise enqueue on every emergency queue,
launch one task per channel, count the completed tasks whose result is true
(exceptions logged and counted as failures), succeed when that count is
positive and otherwise trigger escalation and return false. -/
def send_emergency_notification (st : ServiceState) (n : Notification)
    (outcome : NotificationChannel → AttemptOutcome) :
    Except String EmergencyResult :=
  if n.type ≠ NotificationType.EMERGENCY_ALERT then
    .error "send_emergency_notification called on non-emergency notification."
  else
    let st1 := enqueue_emergency_all st n
    let success_count :=
      (emergency_channels.filter (fun c => attempt_success (outcome c))).length
    if success_count > 0 then
      .ok { ok := true, state := st1, escalated := false }
    else
      .ok { ok := false, state := st1, escalated := true }

/-- Recursion core of `NotificationService.handle_retry`.  `out i` is the
outcome of the collaborator call of the i-th re-attempt; the final `Nat` of
the result counts the delivery attempts performed by the call chain.  `fuel`
bounds the recursion (the source recursion is bounded by `max_retries`, so
any fuel above `max_retries` is never exhausted). -/
def handle_retry_aux (out : Nat → DeliverOutcome) (now : Datetime) :
    Nat → ServiceState → Notification → Nat →
    Except String (Bool × ServiceState × Notification × Nat)
  | 0, st, n, _ => .ok (false, st, n, 0)
  | fuel + 1, st, n, i =>
    if n.retry_count ≥ n.max_retries then
      .ok (false, st, n, 0)
    else
      let ir := increment_retry n now
      if ir.1 then
        match update_status ir.2 .FAILED now with
        | .error e => .error e
        | .ok n2 => .ok (false, st, n2, 0)
      else
        let r := handle_channel_delivery st ir.2 ir.2.channel (out i) now
        if r.success then
          .ok (true, r.state, r.notif, 1)
        else if r.notif.retry_count ≥ r.notif.max_retries then
          match update_status r.notif .FAILED now with
          | .error e => .error e
          | .ok n2 => .ok (false, r.state, n2, 1)
        else
          match handle_retry_aux out now fuel r.state r.notif (i + 1) with
          | .error e => .error e
          | .ok (b, st2, n2, k) => .ok (b, st2, n2, k + 1)

/-- `NotificationService.handle_retry`: return false at once when the retry
budget is exhausted; otherwise increment the retry counter (transitioning to
FAILED and returning false when the increment reports max reached), wait out
the backoff, re-deliver on the same channel, and recurse while budget
remains, marking FAILED when it runs out. -/
def handle_retry (st : ServiceState) (n : Notification)
    (out : Nat → DeliverOutcome) (now : Datetime) :
    Except String (Bool × ServiceState × Notification × Nat) :=
  handle_retry_aux out now (n.max_retries + 1) st n 0

/-- Attempt loop of `SMSHandler.send` (`handlers/sms_handler.py`): `attempts k`
tells whether the k-th Twilio `messages.create` call succeeds (otherwise it
raises).  The `try` body marks the notification SENT then DELIVERED and
breaks with success; the generic `except` clause (which also catches a
`ValueError` raised by those optimistic transitions) marks it RETRYING,
increments its retry counter, and either sleeps and continues or marks it
FAILED and breaks.  A `ValueError` raised by `update_status` inside the
`except` clause propagates out of `send`. -/
def sms_send_loop (max_allowed intervals_len : Nat) (attempts : Nat → Bool)
    (now : Datetime) :
    Nat → Nat → Notification → Except String (Bool × Notification)
  | 0, _, n => .ok (false, n)
  | fuel + 1, k, n =>
    if k > max_allowed then .ok (false, n)
    else
      let onExc : Notification → Except String (Bool × Notification) := fun nE =>
        match update_status nE .RETRYING now with
        | .error e => .error e
        | .ok n1 =>
          let ir := increment_retry n1 now
          if ¬ ir.1 ∧ k < intervals_len then
            sms_send_loop max_allowed intervals_len attempts now fuel (k + 1) ir.2
          else
            match update_status ir.2 .FAILED now with
            | .error e => .error e
            | .ok n2 => .ok (false, n2)
      if attempts k then
        match update_status n .SENT now with
        | .ok n1 =>
          match update_status n1 .DELIVERED now with
          | .ok n2 => .ok (true, n2)
          | .error _ => onExc n1
        | .error _ => onExc n
      else onExc n

/-- `SMSHandler.send`: reject an invalid recipient phone number by marking the
notification FAILED and returning false; otherwise run the Twilio attempt
loop (`attempt_counter` from 0 while `attempt_counter <= max_allowed_retries`,
with `intervals` the channel retry-strategy list).  Message formatting and
rate limiting touch neither `status` nor `retry_count` and are elided. -/
def sms_send (cfg_max_retries : Nat) (intervals_len : Nat)
    (attempts : Nat → Bool) (valid_phone : Bool) (now : Datetime)
    (n : Notification) : Except String (Bool × Notification) :=
  if ¬ valid_phone then
    match update_status n .FAILED now with
    | .error e => .error e
    | .ok n1 => .ok (false, n1)
  else
    sms_send_loop cfg_max_retries intervals_len attempts now
      (cfg_max_retries + 1) 0 n

/-- One state-mutating operation of the orchestrator, as seen by the shared
per-channel registries: a `handle_channel_delivery` run (the only code that
touches health counters and breakers) or a priority-queue append. -/
inductive service_step : ServiceState → ServiceState → Prop
  | deliver (st : ServiceState) (n : Notification) (c : NotificationChannel)
      (out : DeliverOutcome) (now : Datetime) :
      service_step st (handle_channel_delivery st n c out now).state
  | enq_normal (st : ServiceState) (c : NotificationChannel) (i : String) :
      service_step st (enqueue_normal st c i)
  | enq_emergency (st : ServiceState) (n : Notification) :
      service_step st (enqueue_emergency_all st n)

/-- Reachability of one service state from another through any sequence of
orchestrator operations. -/
def reachable : ServiceState → ServiceState → Prop :=
  Relation.ReflTransGen service_step

/-- A fixed sample timestamp. -/
def t0 : Datetime := ⟨2024, 1, 1, 0, 0, 0, 0⟩

/-- A non-emergency SMS notification as built by `Notification.__init__`:
status PENDING, `retry_count` 0, and the SMS retry budget `max_retries = 1`. -/
def smsNotif : Notification :=
  { id := "n-1", recipient_id := "+15551234567", type := .WALK_COMPLETED,
    channel := .SMS, status := .PENDING, content := [], metadata := [],
    created_at := t0, updated_at := t0, retry_count := 0,
    max_retries := maxRetriesFor .SMS }

/-- An emergency notification (type EMERGENCY_ALERT, `alert_level` present
in `content`), routed to the PUSH channel. -/
def emergNotif : Notification :=
  { id := "n-2", recipient_id := "+15557654321", type := .EMERGENCY_ALERT,
    channel := .PUSH, status := .PENDING,
    content := [("alert_level", .str "HIGH")], metadata := [],
    created_at := t0, updated_at := t0, retry_count := 0,
    max_retries := maxRetriesFor .PUSH }

/-- A notification already in the terminal DELIVERED status. -/
def deliveredNotif : Notification :=
  { smsNotif with id := "n-3", status := .DELIVERED }

/-- Service state in which every channel is UP with 4 consecutive failures
(one short of the default breaker threshold 5). -/
def st4 : ServiceState :=
  { initState with health := fun _ => { state := "UP", failures := 4 } }

/-- Service state in which every breaker is open. -/
def stOpen : ServiceState :=
  { initState with breakers := fun _ => { is_open := true, threshold := 5 } }

/-- Service state in which every channel is marked DOWN. -/
def stDown : ServiceState :=
  { initState with health := fun _ => { state := "DOWN", failures := 0 } }

/-- k-fold repetition of `increment_retry` on one notification (the call
sequence the retry algorithm performs); the pair is the result of the last
call (`(false, n)` when no call has happened yet). -/
def iterate_retry (now : Datetime) : Nat → Notification → Bool × Notification
  | 0, n => (false, n)
  | k + 1, n => increment_retry (iterate_retry now k n).2 now

/-- Whether a dictionary value is an opaque object reference (such as a
`Notification` instance), rather than rendered payload data. -/
def is_obj_ref : PyValue → Bool
  | .obj _ => true
  | _ => false

/-- Whether any top-level value of a keyword-argument dictionary is an object
reference. -/
def passes_obj_ref (l : PyDict) : Bool :=
  l.any (fun kv => is_obj_ref kv.2)

/-! Helper lemmas about the dictionary model. -/

theorem lookup_none_of_no_key (k : String) (l : PyDict)
    (h : l.any (fun kv => kv.1 == k) = false) : l.lookup k = none := by
  induction l with
  | nil => rfl
  | cons hd tl ih =>
    obtain ⟨a, b⟩ := hd
    rw [List.any_cons] at h
    obtain ⟨h1, h2⟩ := Bool.or_eq_false_iff.mp h
    have hane : a ≠ k := by intro he; rw [he] at h1; simp at h1
    simp [List.lookup_cons, beq_false_of_ne (Ne.symm hane), ih h2]

theorem lookup_derase_self (k : String) (l : PyDict) :
    (derase k l).lookup k = none := by
  induction l with
  | nil => rfl
  | cons hd tl ih =>
    obtain ⟨a, b⟩ := hd
    unfold derase at ih ⊢
    rw [List.filter_cons]
    by_cases h : a = k
    · have hb : (a != k) = false := by simp [h]
      simpa [hb] using ih
    · have hb : (a != k) = true := by simp [h]
      simp [hb, List.lookup_cons, beq_false_of_ne (Ne.symm h), ih]

theorem lookup_derase_other (k k2 : String) (h : k ≠ k2) (l : PyDict) :
    (derase k2 l).lookup k = l.lookup k := by
  induction l with
  | nil => rfl
  | cons hd tl ih =>
    obtain ⟨a, b⟩ := hd
    unfold derase at ih ⊢
    rw [List.filter_cons]
    by_cases ha : a = k2
    · have hb : (a != k2) = false := by simp [ha]
      have hk : (k == a) = false := beq_false_of_ne (by rw [ha]; exact h)
      simp [hb, List.lookup_cons, hk, ih]
    · have hb : (a != k2) = true := by simp [ha]
      cases hka : k == a <;> simp [hb, List.lookup_cons, hka, ih]

theorem lookup_dinsert (k : String) (v : PyValue) (l : PyDict) :
    (dinsert k v l).lookup k = some v := by
  unfold dinsert
  by_cases h : l.any (fun kv => kv.1 == k) = true
  · rw [if_pos h]
    induction l with
    | nil => simp at h
    | cons hd tl ih =>
      obtain ⟨a, b⟩ := hd
      rw [List.any_cons] at h
      by_cases ha : a = k
      · have hb : (a == k) = true := by simp [ha]
        simp [List.map, hb, List.lookup_cons]
      · have hb : (a == k) = false := beq_false_of_ne ha
        have htl : tl.any (fun kv => kv.1 == k) = true := by
          simpa [hb] using h
        have hka : (k == a) = false := beq_false_of_ne (Ne.symm ha)
        simp [List.map, hb, List.lookup_cons, hka, ih htl]
  · rw [if_neg h]
    have h2 : l.any (fun kv => kv.1 == k) = false := by
      cases hb : l.any (fun kv => kv.1 == k)
      · rfl
      · exact absurd hb h
    rw [List.lookup_append, lookup_none_of_no_key k l h2]
    simp [List.lookup_cons]

/-! Helper lemmas about the service-state mutators. -/

theorem set_failures_health_self (st : ServiceState) (c : NotificationChannel)
    (f : Nat) : (set_failures st c f).health c = { st.health c with failures := f } := by
  simp [set_failures]

theorem set_failures_breakers (st : ServiceState) (c : NotificationChannel)
    (f : Nat) : (set_failures st c f).breakers = st.breakers := rfl

theorem open_breaker_self (st : ServiceState) (c : NotificationChannel) :
    (open_breaker st c).breakers c = { st.breakers c with is_open := true } := by
  simp [open_breaker]

theorem open_breaker_mono (st : ServiceState) (c c2 : NotificationChannel)
    (h : (st.breakers c2).is_open = true) :
    ((open_breaker st c).breakers c2).is_open = true := by
  simp only [open_breaker]
  by_cases hc : c2 = c <;> simp [hc, h]

theorem record_failure_breakers_self (st : ServiceState)
    (c : NotificationChannel) :
    (record_failure st c).breakers c =
      (if (st.health c).failures + 1 ≥ (st.breakers c).threshold
       then { st.breakers c with is_open := true } else st.breakers c) := by
  simp only [record_failure]
  by_cases h : (st.health c).failures + 1 ≥ (st.breakers c).threshold
  · rw [if_pos h, if_pos h, open_breaker_self, set_failures_breakers]
  · rw [if_neg h, if_neg h, set_failures_breakers]

theorem record_failure_mono (st : ServiceState) (c c2 : NotificationChannel)
    (h : (st.breakers c2).is_open = true) :
    ((record_failure st c).breakers c2).is_open = true := by
  simp only [record_failure, set_failures_breakers]
  by_cases hc : (st.health c).failures + 1 ≥ (st.breakers c).threshold
  · simp only [hc, if_true]
    exact open_breaker_mono _ c c2 (by simpa [set_failures_breakers] using h)
  · simpa [hc] using h

/-! Characterization lemmas for `handle_channel_delivery`, one per control
path of the source function. -/

theorem hcd_down (st : ServiceState) (n : Notification)
    (c : NotificationChannel) (out : DeliverOutcome) (now : Datetime)
    (h : (st.health c).state ≠ "UP") :
    handle_channel_delivery st n c out now =
      { success := false, invoked := false, state := st, notif := n } := by
  unfold handle_channel_delivery
  rw [if_pos h]

theorem hcd_open (st : ServiceState) (n : Notification)
    (c : NotificationChannel) (out : DeliverOutcome) (now : Datetime)
    (h : (st.breakers c).is_open = true) :
    handle_channel_delivery st n c out now =
      { success := false, invoked := false, state := st, notif := n } := by
  unfold handle_channel_delivery
  by_cases h1 : (st.health c).state ≠ "UP"
  · rw [if_pos h1]
  · rw [if_neg h1, if_pos h]

theorem hcd_success (st : ServiceState) (n : Notification)
    (c : NotificationChannel) (now : Datetime)
    (hup : (st.health c).state = "UP") (hcl : (st.breakers c).is_open = false) :
    handle_channel_delivery st n c .success now =
      { success := true, invoked := true, state := set_failures st c 0,
        notif := apply_success_transitions n now } := by
  unfold handle_channel_delivery
  rw [if_neg (by simp [hup]), if_neg (by simp [hcl])]

theorem hcd_failure (st : ServiceState) (n : Notification)
    (c : NotificationChannel) (now : Datetime)
    (hup : (st.health c).state = "UP") (hcl : (st.breakers c).is_open = false) :
    handle_channel_delivery st n c .failure now =
      { success := false, invoked := true, state := record_failure st c,
        notif := n } := by
  unfold handle_channel_delivery
  rw [if_neg (by simp [hup]), if_neg (by simp [hcl])]

theorem hcd_raised (st : ServiceState) (n : Notification)
    (c : NotificationChannel) (now : Datetime)
    (hup : (st.health c).state = "UP") (hcl : (st.breakers c).is_open = false) :
    handle_channel_delivery st n c .raised now =
      { success := false, invoked := true, state := record_failure st c,
        notif := n } := by
  unfold handle_channel_delivery
  rw [if_neg (by simp [hup]), if_neg (by simp [hcl])]

theorem step_breaker_mono (st st2 : ServiceState) (c : NotificationChannel)
    (h : (st.breakers c).is_open = true) (hs : service_step st st2) :
    (st2.breakers c).is_open = true := by
  cases hs with
  | deliver n c2 out now =>
    by_cases h1 : (st.health c2).state ≠ "UP"
    · rw [hcd_down st n c2 out now h1]; exact h
    · have hup : (st.health c2).state = "UP" := by
        by_contra hc; exact h1 hc
      by_cases h2 : (st.breakers c2).is_open = true
      · rw [hcd_open st n c2 out now h2]; exact h
      · have hcl : (st.breakers c2).is_open = false := by
          cases hb : (st.breakers c2).is_open
          · rfl
          · exact absurd hb h2
        cases out with
        | success =>
          rw [hcd_success st n c2 now hup hcl]
          simpa [set_failures_breakers] using h
        | failure =>
          rw [hcd_failure st n c2 now hup hcl]
          exact record_failure_mono st c2 c h
        | raised =>
          rw [hcd_raised st n c2 now hup hcl]
          exact record_failure_mono st c2 c h
  | enq_normal c2 i => exact h
  | enq_emergency n => exact h

theorem reach_breaker_mono (st st2 : ServiceState) (c : NotificationChannel)
    (h : (st.breakers c).is_open = true) (hr : reachable st st2) :
    (st2.breakers c).is_open = true := by
  induction hr with
  | refl => exact h
  | tail _ hstep ih => exact step_breaker_mono _ _ c ih hstep

theorem iterate_retry_counts (now : Datetime) (n : Notification) :
    ∀ k, (iterate_retry now k n).2.retry_count = n.retry_count + k
      ∧ (iterate_retry now k n).2.max_retries = n.max_retries := by
  intro k
  induction k with
  | zero => exact ⟨rfl, rfl⟩
  | succ k ih =>
    constructor
    · show (increment_retry (iterate_retry now k n).2 now).2.retry_count = _
      rw [show (increment_retry (iterate_retry now k n).2 now).2.retry_count
          = (iterate_retry now k n).2.retry_count + 1 from rfl, ih.1]
      exact Nat.add_assoc _ _ _
    · show (increment_retry (iterate_retry now k n).2 now).2.max_retries = _
      rw [show (increment_retry (iterate_retry now k n).2 now).2.max_retries
          = (iterate_retry now k n).2.max_retries from rfl, ih.2]

theorem update_status_ok (n : Notification) (s : NotificationStatus)
    (now : Datetime) (h : s ∈ allowed_transitions n.status) :
    update_status n s now = .ok { n with status := s, updated_at := now } := by
  unfold update_status
  rw [if_pos h]

theorem update_status_err (n : Notification) (s : NotificationStatus)
    (now : Datetime) (h : s ∉ allowed_transitions n.status) :
    update_status n s now = .error ("Invalid status transition from " ++
      statusName n.status ++ " to " ++ statusName s ++ ".") := by
  unfold update_status
  rw [if_neg h]

/-- C2: for every notification and requested status, `update_status` succeeds
exactly when the new status is in the allowed-successor set of the current
status under the table PENDING to SENT/FAILED/RETRYING, SENT to
DELIVERED/FAILED/RETRYING, DELIVERED terminal, FAILED to RETRYING, RETRYING
to SENT/FAILED; on success it sets `status` and refreshes `updated_at`, and
on any other transition it raises InvalidTransition (a ValueError), leaving
the notification record unchanged. -/
theorem update_status_spec :
    (allowed_transitions .PENDING = [.SENT, .FAILED, .RETRYING]
      ∧ allowed_transitions .SENT = [.DELIVERED, .FAILED, .RETRYING]
      ∧ allowed_transitions .DELIVERED = []
      ∧ allowed_transitions .FAILED = [.RETRYING]
      ∧ allowed_transitions .RETRYING = [.SENT, .FAILED])
    ∧ (∀ (n : Notification) (s : NotificationStatus) (now : Datetime),
        (s ∈ allowed_transitions n.status →
          update_status n s now = .ok { n with status := s, updated_at := now })
        ∧ (s ∉ allowed_transitions n.status →
          ∃ msg, update_status n s now = .error msg)) := by
  refine ⟨⟨rfl, rfl, rfl, rfl, rfl⟩, fun n s now => ⟨fun h => ?_, fun h => ?_⟩⟩
  · unfold update_status
    rw [if_pos h]
  · unfold update_status
    rw [if_neg h]
    exact ⟨_, rfl⟩

/-- Witness for C2: from PENDING the transition to SENT succeeds; from the
terminal DELIVERED status the same request raises. -/
theorem update_status_spec_witness :
    update_status smsNotif .SENT t0
      = .ok { smsNotif with status := .SENT, updated_at := t0 }
    ∧ ∃ msg, update_status deliveredNotif .SENT t0 = .error msg :=
  ⟨(update_status_spec.2 smsNotif .SENT t0).1 (by decide),
   (update_status_spec.2 deliveredNotif .SENT t0).2 (by decide)⟩

/-- C5 counterexample: for a PUSH delivery of an EMERGENCY_ALERT notification,
the keyword arguments handed to the push collaborator contain no `priority`
flag at all, so the flag passed downstream is not true for this emergency
notification, contradicting the claim for the PUSH channel. -/
theorem priority_flag_push_cex :
    emergNotif.type = .EMERGENCY_ALERT
    ∧ passed_priority_flag emergNotif .PUSH = none := ⟨rfl, rfl⟩

/-- C5 (amended): only the EMAIL collaborator receives an explicit `priority`
flag, and there it is true exactly when the notification type is
EMERGENCY_ALERT; the PUSH keyword arguments carry no priority flag, and the
SMS collaborator receives the notification object itself rather than a
priority flag. -/
theorem priority_flag_amended :
    ∀ (n : Notification),
      passed_priority_flag n .EMAIL = some (decide (n.type = .EMERGENCY_ALERT))
      ∧ passed_priority_flag n .PUSH = none
      ∧ passed_priority_flag n .SMS = none :=
  fun _ => ⟨rfl, rfl, rfl⟩

/-- C7: each `increment_retry` call bumps `retry_count` by one, stores the
backoff `5 * 2 ^ (retry_count - 1)` seconds (with the post-increment counter)
in `metadata`, refreshes `updated_at`, and returns true exactly when the new
`retry_count` has reached `max_retries`; hence starting from `retry_count = 0`
the k-th call returns false for every k below `max_retries` and true on the
call where `retry_count` equals `max_retries`, for every channel. -/
theorem increment_retry_spec :
    ∀ (n : Notification) (now : Datetime),
      ((increment_retry n now).2.retry_count = n.retry_count + 1
        ∧ (increment_retry n now).2.updated_at = now
        ∧ ((increment_retry n now).2.metadata).lookup "last_retry_backoff_seconds"
            = some (.int (5 * 2 ^ n.retry_count))
        ∧ ((increment_retry n now).1 = true ↔ n.retry_count + 1 ≥ n.max_retries))
      ∧ (∀ k, (iterate_retry now (k + 1) n).1
          = decide (n.retry_count + (k + 1) ≥ n.max_retries))
      ∧ (n.retry_count = 0 →
          (∀ k, 1 ≤ k → k < n.max_retries → (iterate_retry now k n).1 = false)
          ∧ (1 ≤ n.max_retries → (iterate_retry now n.max_retries n).1 = true)) := by
  intro n now
  have hstep : ∀ k, (iterate_retry now (k + 1) n).1
      = decide (n.retry_count + (k + 1) ≥ n.max_retries) := by
    intro k
    show (increment_retry (iterate_retry now k n).2 now).1 = _
    rw [show (increment_retry (iterate_retry now k n).2 now).1
        = decide ((iterate_retry now k n).2.retry_count + 1
            ≥ (iterate_retry now k n).2.max_retries) from rfl,
      (iterate_retry_counts now n k).1, (iterate_retry_counts now n k).2,
      Nat.add_assoc]
  refine ⟨⟨rfl, rfl, ?_, ?_⟩, hstep, fun h0 => ⟨fun k hk1 hk2 => ?_, fun hm => ?_⟩⟩
  · show (dinsert "last_retry_backoff_seconds"
      (.int (5 * 2 ^ (n.retry_count + 1 - 1))) n.metadata).lookup
        "last_retry_backoff_seconds" = _
    rw [Nat.add_sub_cancel]
    exact lookup_dinsert _ _ _
  · simp [increment_retry]
  · obtain ⟨j, rfl⟩ : ∃ j, k = j + 1 := ⟨k - 1, by omega⟩
    rw [hstep j, h0]
    simp only [Nat.zero_add, decide_eq_false_iff_not]
    omega
  · obtain ⟨j, hj⟩ : ∃ j, n.max_retries = j + 1 := ⟨n.max_retries - 1, by omega⟩
    rw [hj, hstep j, h0, hj]
    simp

/-- Witness for C7: on the SMS notification (`max_retries = 1`, starting
retry count 0) the first `increment_retry` call already reports max reached
and records a 5-second backoff. -/
theorem increment_retry_spec_witness :
    (iterate_retry t0 smsNotif.max_retries smsNotif).1 = true
    ∧ ((increment_retry smsNotif t0).2.metadata).lookup
        "last_retry_backoff_seconds" = some (.int 5) :=
  ⟨((increment_retry_spec smsNotif t0).2.2 rfl).2 (by decide),
   (increment_retry_spec smsNotif t0).1.2.2.1⟩

/-- C8: when the channel health is not UP or the circuit breaker is open,
`handle_channel_delivery` returns false without invoking the channel
collaborator and with no side effects: the service state (health counters,
breaker flags and priority queues) and the notification (status, retry count
and metadata) are returned exactly as they came in. -/
theorem delivery_refusal_frame :
    ∀ (st : ServiceState) (n : Notification) (c : NotificationChannel)
      (out : DeliverOutcome) (now : Datetime),
      ((st.health c).state ≠ "UP" ∨ (st.breakers c).is_open = true) →
      handle_channel_delivery st n c out now =
        { success := false, invoked := false, state := st, notif := n } := by
  intro st n c out now h
  rcases h with h | h
  · exact hcd_down st n c out now h
  · exact hcd_open st n c out now h

/-- Witness for C8: with the SMS channel marked DOWN, a delivery whose
collaborator would have succeeded is refused with everything unchanged. -/
theorem delivery_refusal_frame_witness :
    handle_channel_delivery stDown smsNotif .SMS .success t0 =
      { success := false, invoked := false, state := stDown, notif := smsNotif } :=
  delivery_refusal_frame stDown smsNotif .SMS .success t0 (Or.inl (by decide))

/-- C9: when the collaborator reports success, `handle_channel_delivery`
resets the channel failure counter to 0, leaves the breakers as they were,
applies the optimistic SENT-then-DELIVERED double transition, and returns
true even when one of those transitions raises InvalidTransition — the raise
is swallowed (leaving the notification as it was before the raising call)
and never changes the returned outcome. -/
theorem delivery_success_spec :
    ∀ (st : ServiceState) (n : Notification) (c : NotificationChannel)
      (now : Datetime),
      (st.health c).state = "UP" → (st.breakers c).is_open = false →
      (handle_channel_delivery st n c .success now).success = true
      ∧ (handle_channel_delivery st n c .success now).invoked = true
      ∧ ((handle_channel_delivery st n c .success now).state.health c).failures = 0
      ∧ (handle_channel_delivery st n c .success now).state.breakers = st.breakers
      ∧ (handle_channel_delivery st n c .success now).notif
          = apply_success_transitions n now
      ∧ (n.status = .DELIVERED →
          (handle_channel_delivery st n c .success now).notif = n)
      ∧ (n.status = .PENDING →
          ((handle_channel_delivery st n c .success now).notif).status
            = .DELIVERED) := by
  intro st n c now hup hcl
  rw [hcd_success st n c now hup hcl]
  refine ⟨rfl, rfl, ?_, set_failures_breakers st c 0, rfl, fun hd => ?_, fun hp => ?_⟩
  · rw [set_failures_health_self]
  · unfold apply_success_transitions
    rw [update_status_err n .SENT now (by rw [hd]; decide)]
  · unfold apply_success_transitions
    rw [update_status_ok n .SENT now (by rw [hp]; decide)]
    rfl

/-- Witness for C9: delivering a notification already in the terminal
DELIVERED status still returns true, with the raised InvalidTransition of the
optimistic SENT transition swallowed and the notification unchanged. -/
theorem delivery_success_spec_witness :
    (handle_channel_delivery initState deliveredNotif .SMS .success t0).success
      = true
    ∧ (handle_channel_delivery initState deliveredNotif .SMS .success t0).notif
      = deliveredNotif :=
  ⟨(delivery_success_spec initState deliveredNotif .SMS t0 rfl rfl).1,
   (delivery_success_spec initState deliveredNotif .SMS t0 rfl rfl).2.2.2.2.2.1 rfl⟩

/-- C10: `to_dict` renders the type, channel and status enum fields by name,
renders both timestamps with `isoformat`, and exposes sanitized copies of
`content` and `metadata` from which every `password` and `token` key has been
stripped, whatever the input dictionaries contained. -/
theorem to_dict_spec :
    ∀ (n : Notification),
      ((to_dict n).lookup "type" = some (.str (typeName n.type))
        ∧ (to_dict n).lookup "channel" = some (.str (channelName n.channel))
        ∧ (to_dict n).lookup "status" = some (.str (statusName n.status))
        ∧ (to_dict n).lookup "created_at" = some (.str n.created_at.isoformat)
        ∧ (to_dict n).lookup "updated_at" = some (.str n.updated_at.isoformat)
        ∧ (to_dict n).lookup "content" = some (.dict (sanitize_data n.content))
        ∧ (to_dict n).lookup "metadata" = some (.dict (sanitize_data n.metadata)))
      ∧ (∀ d : PyDict,
          (sanitize_data d).lookup "password" = none
          ∧ (sanitize_data d).lookup "token" = none) := by
  intro n
  refine ⟨⟨rfl, rfl, rfl, rfl, rfl, rfl, rfl⟩, fun d => ⟨?_, ?_⟩⟩
  · unfold sanitize_data
    rw [lookup_derase_other "password" "token" (by decide), lookup_derase_self]
  · exact lookup_derase_self _ _

theorem channel_mem_emergency (c : NotificationChannel) :
    c ∈ emergency_channels := by
  cases c <;> decide

theorem attempt_success_iff (a : AttemptOutcome) :
    attempt_success a = true ↔ a = .completed true := by
  cases a with
  | completed b => cases b <;> simp [attempt_success]
  | raised => simp [attempt_success]
  | unfinished => simp [attempt_success]

theorem success_count_pos_iff (outcome : NotificationChannel → AttemptOutcome) :
    0 < (emergency_channels.filter (fun c => attempt_success (outcome c))).length
    ↔ ∃ c, outcome c = .completed true := by
  rw [List.length_pos]
  constructor
  · intro h
    obtain ⟨c, hc⟩ := List.exists_mem_of_ne_nil _ h
    have hm := List.mem_filter.mp hc
    exact ⟨c, (attempt_success_iff _).mp hm.2⟩
  · rintro ⟨c, hc⟩ hnil
    have hm : c ∈ emergency_channels.filter
        (fun c => attempt_success (outcome c)) :=
      List.mem_filter.mpr ⟨channel_mem_emergency c, (attempt_success_iff _).mpr hc⟩
    rw [hnil] at hm
    exact absurd hm (List.not_mem_nil c)

/-- C1: for every emergency notification, `send_emergency_notification`
launches exactly one delivery attempt per channel (each channel occurs once
in the fan-out list, with no per-channel retry), returns true exactly when at
least one attempt that completed within the 300-second deadline reported
true, counts a raising attempt as a failure without propagating it, emits an
escalation exactly when there are zero successes (returning false), and
raises a ValidationError for a notification whose type is not
EMERGENCY_ALERT. -/
theorem emergency_fanout_spec :
    ∀ (st : ServiceState) (n : Notification)
      (outcome : NotificationChannel → AttemptOutcome),
      (n.type ≠ .EMERGENCY_ALERT →
        send_emergency_notification st n outcome =
          .error "send_emergency_notification called on non-emergency notification.")
      ∧ (n.type = .EMERGENCY_ALERT →
          ∃ r : EmergencyResult,
            send_emergency_notification st n outcome = .ok r
            ∧ r.state = enqueue_emergency_all st n
            ∧ (r.ok = true ↔ ∃ c, outcome c = .completed true)
            ∧ r.escalated = !r.ok)
      ∧ (∀ c, emergency_channels.count c = 1) := by
  intro st n outcome
  refine ⟨fun h => ?_, fun h => ?_, fun c => by cases c <;> rfl⟩
  · unfold send_emergency_notification
    rw [if_pos h]
  · unfold send_emergency_notification
    rw [if_neg (by simp [h])]
    by_cases hs : 0 < (emergency_channels.filter
        (fun c => attempt_success (outcome c))).length
    · rw [if_pos hs]
      exact ⟨_, rfl, rfl,
        iff_of_true rfl ((success_count_pos_iff outcome).mp hs), rfl⟩
    · rw [if_neg hs]
      refine ⟨_, rfl, rfl, iff_of_false (by simp) fun hex => ?_, rfl⟩
      exact hs ((success_count_pos_iff outcome).mpr hex)

/-- Witness for C1: calling the emergency path on a non-emergency
notification raises the validation error. -/
theorem emergency_fanout_spec_witness :
    send_emergency_notification initState smsNotif (fun _ => .completed true) =
      .error "send_emergency_notification called on non-emergency notification." :=
  (emergency_fanout_spec initState smsNotif (fun _ => .completed true)).1
    (by decide)

/-- C3: the circuit breaker of a channel opens exactly when consecutive
delivery failures reach the failure threshold; once open, any reachable later
state still has it open, delivery attempts on that channel are refused before
the collaborator is invoked and with nothing changed, and a successful
delivery (only possible while the breaker is closed) merely resets the
consecutive-failure counter to 0, leaving every breaker flag as it was — no
operation ever sets `is_open` back to false. -/
theorem circuit_breaker_spec :
    (∀ (st : ServiceState) (n : Notification) (c : NotificationChannel)
        (out : DeliverOutcome) (now : Datetime),
        (st.health c).state = "UP" → (st.breakers c).is_open = false →
        (out = .failure ∨ out = .raised) →
        ((((handle_channel_delivery st n c out now).state.breakers c).is_open
            = true)
          ↔ (st.health c).failures + 1 ≥ (st.breakers c).threshold))
    ∧ (∀ (st : ServiceState) (n : Notification) (c : NotificationChannel)
        (now : Datetime),
        (st.health c).state = "UP" → (st.breakers c).is_open = false →
        (handle_channel_delivery st n c .success now).state.breakers = st.breakers
        ∧ ((handle_channel_delivery st n c .success now).state.health c).failures
            = 0)
    ∧ (∀ (st : ServiceState) (n : Notification) (c : NotificationChannel)
        (out : DeliverOutcome) (now : Datetime),
        (st.breakers c).is_open = true →
        handle_channel_delivery st n c out now =
          { success := false, invoked := false, state := st, notif := n })
    ∧ (∀ (st st2 : ServiceState) (c : NotificationChannel),
        (st.breakers c).is_open = true → reachable st st2 →
        (st2.breakers c).is_open = true) := by
  refine ⟨fun st n c out now hup hcl hout => ?_, fun st n c now hup hcl => ?_,
    fun st n c out now h => hcd_open st n c out now h,
    fun st st2 c h hr => reach_breaker_mono st st2 c h hr⟩
  · have hst : (handle_channel_delivery st n c out now).state
        = record_failure st c := by
      rcases hout with h | h <;> subst h
      · rw [hcd_failure st n c now hup hcl]
      · rw [hcd_raised st n c now hup hcl]
    rw [hst, record_failure_breakers_self]
    by_cases hth : (st.health c).failures + 1 ≥ (st.breakers c).threshold
    · rw [if_pos hth]
      simp [hth]
    · rw [if_neg hth]
      simp [hcl, hth]
  · rw [hcd_success st n c now hup hcl]
    exact ⟨set_failures_breakers st c 0, by rw [set_failures_health_self]⟩

/-- Witness for C3: with 4 prior consecutive failures, a 5th failure opens
the EMAIL breaker; from a state whose SMS breaker is open, a step with a
would-be-successful collaborator leaves it open, and the attempt is refused
with nothing changed. -/
theorem circuit_breaker_spec_witness :
    (((handle_channel_delivery st4 smsNotif .EMAIL .failure t0).state.breakers
        .EMAIL).is_open = true)
    ∧ (((handle_channel_delivery stOpen smsNotif .SMS .success t0).state.breakers
        .SMS).is_open = true)
    ∧ handle_channel_delivery stOpen smsNotif .SMS .failure t0 =
        { success := false, invoked := false, state := stOpen, notif := smsNotif } :=
  ⟨(circuit_breaker_spec.1 st4 smsNotif .EMAIL .failure t0 rfl rfl
      (Or.inl rfl)).mpr (by decide),
   circuit_breaker_spec.2.2.2 stOpen _ .SMS rfl
     (Relation.ReflTransGen.single
       (service_step.deliver stOpen smsNotif .SMS .success t0)),
   circuit_breaker_spec.2.2.1 stOpen smsNotif .SMS .failure t0 rfl⟩

/-- C6: `handle_retry` returns false immediately, with nothing changed and no
delivery attempt, when the retry budget is already exhausted at entry; and
when the `increment_retry` call reports that max retries is reached, it
transitions the notification to FAILED and returns false without performing
any delivery attempt (the FAILED transition must be legal from the current
status, else the ValueError it raises propagates). -/
theorem handle_retry_spec :
    ∀ (st : ServiceState) (n : Notification) (out : Nat → DeliverOutcome)
      (now : Datetime),
      (n.retry_count ≥ n.max_retries →
        handle_retry st n out now = .ok (false, st, n, 0))
      ∧ (n.retry_count < n.max_retries → n.retry_count + 1 ≥ n.max_retries →
          NotificationStatus.FAILED ∈ allowed_transitions n.status →
          handle_retry st n out now =
            .ok (false, st,
              { n with status := .FAILED,
                       updated_at := now,
                       retry_count := n.retry_count + 1,
                       metadata := dinsert "last_retry_backoff_seconds"
                         (.int (5 * 2 ^ n.retry_count)) n.metadata }, 0)) := by
  intro st n out now
  constructor
  · intro h
    unfold handle_retry
    simp only [handle_retry_aux]
    rw [if_pos h]
  · intro h1 h2 h3
    unfold handle_retry
    simp only [handle_retry_aux]
    rw [if_neg (by omega)]
    have hir1 : (increment_retry n now).1 = true := by
      rw [show (increment_retry n now).1
          = decide (n.retry_count + 1 ≥ n.max_retries) from rfl]
      exact decide_eq_true h2
    rw [if_pos hir1, update_status_ok (increment_retry n now).2 .FAILED now h3]
    rfl

/-- Witness for C6: on a non-emergency SMS notification (`max_retries = 1`,
retry count 0 after an initial failure), one `handle_retry` call increments
the retry count to 1, marks the notification FAILED, and returns false with
zero further delivery attempts. -/
theorem handle_retry_spec_witness :
    handle_retry initState smsNotif (fun _ => .failure) t0 =
      .ok (false, initState,
        { smsNotif with
            status := .FAILED, updated_at := t0, retry_count := 1,
            metadata := dinsert "last_retry_backoff_seconds" (.int 5) [] }, 0) :=
  (handle_retry_spec initState smsNotif (fun _ => .failure) t0).2
    (by decide) (by decide) (by decide)

/-- C4 counterexample: the SMS channel handler, invoked as a delivery
collaborator, mutates the notification during a delivery attempt chain: on a
successful first Twilio attempt it moves the status from PENDING to
DELIVERED, and on a failed attempt it increments the retry count to 1 and
moves the status to FAILED — so the orchestrator is not the only mutator of
status and retryCount. -/
theorem ownership_cex :
    smsNotif.status = .PENDING ∧ smsNotif.retry_count = 0
    ∧ (∃ n2, sms_send 1 2 (fun _ => true) true t0 smsNotif = .ok (true, n2)
        ∧ n2.status = .DELIVERED)
    ∧ (∃ n3, sms_send 1 2 (fun _ => false) true t0 smsNotif = .ok (false, n3)
        ∧ n3.status = .FAILED ∧ n3.retry_count = 1) :=
  ⟨rfl, rfl, ⟨_, rfl, rfl⟩, ⟨_, rfl, rfl, rfl⟩⟩

/-- C4 (amended): the orchestrator is not the exclusive mutator — the SMS
channel handler, which receives the `Notification` object itself, also
mutates its status (and on failures its retry count) during one delivery
attempt; the EMAIL and PUSH collaborators receive only rendered payload
dictionaries with no notification object reference, so on those channels only
the orchestrator mutates the notification. -/
theorem ownership_amended :
    (∀ (n : Notification) (cfg ilen : Nat) (attempts : Nat → Bool)
        (now : Datetime),
      n.status = .PENDING → attempts 0 = true →
      sms_send cfg ilen attempts true now n =
        .ok (true, { n with status := .DELIVERED, updated_at := now }))
    ∧ (∀ n : Notification,
        passes_obj_ref (method_args n .SMS) = true
        ∧ passes_obj_ref (method_args n .EMAIL) = false
        ∧ passes_obj_ref (method_args n .PUSH) = false) := by
  constructor
  · intro n cfg ilen attempts now hp hatt
    unfold sms_send
    rw [if_neg (by simp)]
    simp only [sms_send_loop]
    rw [if_neg (by omega), if_pos hatt,
      update_status_ok n .SENT now (by rw [hp]; decide)]
    rfl
  · intro n
    exact ⟨rfl, rfl, rfl⟩

/-- Witness for C4 (amended): running the SMS handler on the PENDING SMS
notification with a successful first attempt yields true with the status
mutated to DELIVERED inside the handler. -/
theorem ownership_amended_witness :
    sms_send 3 2 (fun _ => true) true t0 smsNotif =
      .ok (true, { smsNotif with status := .DELIVERED, updated_at := t0 }) :=
  ownership_amended.1 smsNotif 3 2 (fun _ => true) t0 rfl rfl

end NotifSvc
